import Mathlib

/-!
# Verification of the sales-agent core (agente-vendas)

Shallow embedding of the follow-up scheduling engine
(`src/services/followup_scheduler.py`), the NLP message-understanding
engine (`src/services/nlp_service.py`) and the message-processing route
(`src/routes/chat.py`), together with proofs about the spec's claims.

Conventions:
* Python `datetime` values are modelled at minute resolution as `DT := Nat`,
  the number of minutes since an epoch placed on a Monday 00:00
  (all code paths under verification set `second=0, microsecond=0` via
  `replace`, or only compare/shift whole days and minutes, so minute
  resolution is exact for them).
* Python floats are modelled as exact rationals `ℚ`; every constant in the
  source is a short decimal, far from the decision thresholds it is
  compared against, so exact rational arithmetic decides the same branches.
* The database is modelled as an explicit `Store` value; SQLAlchemy
  queries become list operations over it, and each mutating route becomes
  a function `Store → ... → Result × Store`.
* Values produced by the external libraries spaCy / TextBlob (named-entity
  bags, sentiment polarity/subjectivity) enter the embedded functions as
  parameters, exactly as they enter the Python functions as arguments.
-/

namespace AgenteVendas

/-! ## Datetime model (minute resolution, epoch = a Monday 00:00) -/

/-- Minutes since the epoch (a Monday 00:00 UTC). -/
abbrev DT := Nat

/-- `datetime.weekday()`: 0 = Monday … 6 = Sunday. -/
def week_day (t : DT) : Nat := t / 1440 % 7

/-- Minutes since midnight of the same day (the `datetime.time()` part). -/
def time_of_day (t : DT) : Nat := t % 1440

/-- `dt.replace(hour=…, minute=…, second=0, microsecond=0)`:
keep the date, set the time-of-day to `m` minutes after midnight. -/
def replace_time (t : DT) (m : Nat) : DT := t / 1440 * 1440 + m

/-- `dt + timedelta(days=d)`. -/
def add_days (t : DT) (d : Nat) : DT := t + d * 1440

/-! ## Follow-up scheduler: enumerations and constants
(`followup_scheduler.py`, lines 10–62) -/

/-- `class FollowUpType(Enum)` (lines 10–17). -/
inductive FollowUpType where
  | welcome | nurturing | qualification | proposal | closing
  | reactivation | feedback
deriving DecidableEq, Repr

/-- `FollowUpType.value` (the string payload of each enum member). -/
def FollowUpType.value : FollowUpType → String
  | .welcome => "welcome"
  | .nurturing => "nurturing"
  | .qualification => "qualification"
  | .proposal => "proposal"
  | .closing => "closing"
  | .reactivation => "reactivation"
  | .feedback => "feedback"

/-- `class Priority(Enum)` (lines 19–23). -/
inductive Priority where
  | LOW | MEDIUM | HIGH | URGENT
deriving DecidableEq, Repr

/-- `Priority.name` as used in the scheduling result / analytics. -/
def Priority.pname : Priority → String
  | .LOW => "LOW"
  | .MEDIUM => "MEDIUM"
  | .HIGH => "HIGH"
  | .URGENT => "URGENT"

/-- `self.default_intervals` (lines 45–53), in minutes. -/
def default_intervals : FollowUpType → Nat
  | .welcome => 2 * 60
  | .nurturing => 3 * 1440
  | .qualification => 1 * 1440
  | .proposal => 2 * 1440
  | .closing => 24 * 60
  | .reactivation => 7 * 1440
  | .feedback => 1 * 1440

/-! ## Engagement pattern records

`_analyze_lead_response_patterns` / `_analyze_segment_patterns` return
Python dicts, read back with `.get(key, default)`.  A missing key and the
empty dict `{}` behave exactly like the defaults below, so the dicts are
modelled as records whose default values are the `.get` defaults. -/

/-- Result of `_analyze_lead_response_patterns` (lines 151–178).
The empty dict returned when the lead has no inbound conversations
corresponds to `total_interactions = 0`, empty lists, `none`. -/
structure LeadPatterns where
  preferred_hours : List Nat := []
  preferred_days : List Nat := []
  avg_response_time : Option ℚ := none
  total_interactions : Nat := 0
deriving Repr

/-- Result of `_analyze_segment_patterns` (lines 180–217); the empty dict
corresponds to `sample_size = 0` and empty lists. -/
structure SegmentPatterns where
  preferred_hours : List Nat := []
  preferred_days : List Nat := []
  sample_size : Nat := 0
deriving Repr

/-- `_get_optimal_hour` (lines 219–237), returning the chosen
`(hour, minute)` pair of the `time` object it builds. -/
def get_optimal_hour (lp : LeadPatterns) (sp : SegmentPatterns) :
    Nat × Nat :=
  if 3 ≤ lp.total_interactions then
    match lp.preferred_hours with
    | h :: _ => (h, 0)
    | [] =>
      if 10 ≤ sp.sample_size then
        match sp.preferred_hours with
        | h :: _ => (h, 0)
        | [] => (10, 30)
      else (10, 30)
  else
    if 10 ≤ sp.sample_size then
      match sp.preferred_hours with
      | h :: _ => (h, 0)
      | [] => (10, 30)
    else (10, 30)

/-- `_get_optimal_day` (lines 239–260). -/
def get_optimal_day (lp : LeadPatterns) (sp : SegmentPatterns)
    (ft : FollowUpType) : Option Nat :=
  if ft = .welcome ∨ ft = .closing then none
  else if 3 ≤ lp.total_interactions then
    match lp.preferred_days with
    | d :: _ => some d
    | [] =>
      if 10 ≤ sp.sample_size then
        match sp.preferred_days with
        | d :: _ => some d
        | [] => some 1
      else some 1
  else
    if 10 ≤ sp.sample_size then
      match sp.preferred_days with
      | d :: _ => some d
      | [] => some 1
    else some 1

/-- `_adjust_to_business_hours` (lines 262–297).
Business hours 09:00–18:00 (minutes 540–1080), lunch 12:00–14:00
(minutes 720–840). -/
def adjust_to_business_hours (t : DT) : DT :=
  let t1 := if 5 ≤ week_day t then add_days t (7 - week_day t) else t
  let ct := time_of_day t1
  if ct < 540 then replace_time t1 540
  else if 1080 < ct then
    let t2 := replace_time (add_days t1 1) 540
    if 5 ≤ week_day t2 then add_days t2 (7 - week_day t2) else t2
  else if 720 ≤ ct ∧ ct ≤ 840 then replace_time t1 840
  else t1

/-- `_calculate_optimal_time` (lines 115–149), with the two pattern
analyses (lines 119–122) supplied as arguments; the store-backed wrapper
is defined below once the store is available. -/
def calculate_optimal_time (lp : LeadPatterns) (sp : SegmentPatterns)
    (now : DT) (ft : FollowUpType) : DT :=
  let base := now + default_intervals ft
  let oh := get_optimal_hour lp sp
  let od := get_optimal_day lp sp ft
  let t := replace_time base (oh.1 * 60 + oh.2)
  let t :=
    match od with
    | none => t
    | some d =>
      let days_ahead : Int := (d : Int) - (week_day t : Int)
      let days_ahead := if days_ahead ≤ 0 then days_ahead + 7 else days_ahead
      t + days_ahead.toNat * 1440
  adjust_to_business_hours t

/-! ### Invariant of the business-hours normalisation -/

/-- Whatever timestamp goes in, `_adjust_to_business_hours` produces a
weekday timestamp whose time-of-day lies in [09:00, 18:00] and outside
[12:00, 14:00). -/
theorem adjust_to_business_hours_invariant (t : DT) :
    week_day (adjust_to_business_hours t) < 5 ∧
    540 ≤ time_of_day (adjust_to_business_hours t) ∧
    time_of_day (adjust_to_business_hours t) ≤ 1080 ∧
    ¬(720 ≤ time_of_day (adjust_to_business_hours t) ∧
       time_of_day (adjust_to_business_hours t) < 840) := by
  simp only [adjust_to_business_hours, week_day, time_of_day,
    replace_time, add_days]
  split_ifs <;> refine ⟨by omega, by omega, by omega, by omega⟩

/-! ## Data model (`src/models/lead.py`) and the store

The SQLAlchemy session/database is modelled as a `Store` value holding the
table rows in insertion order; queries become list operations.  Only the
columns read or written by the functions under verification are kept. -/

/-- A row of the `leads` table (`lead.py`, lines 5–61). -/
structure LeadM where
  id : Nat
  name : String
  qualification_score : ℚ := 0
  category : Option String := none
  location : Option String := none
  last_interaction : Option DT := none
  interaction_count : Nat := 0
  sentiment_score : ℚ := 0
  source : Option String := none
  updated_at : DT := 0

/-- A row of the `conversations` table (`lead.py`, lines 64–106). -/
structure ConversationM where
  id : Nat
  lead_id : Nat
  channel : String
  direction : String
  message_content : String
  intent : Option String := none
  sentiment : Option ℚ := none
  confidence : Option ℚ := none
  is_escalated : Bool := false
  escalation_reason : Option String := none
  created_at : DT := 0

/-- A row of the `followups` table (`lead.py`, lines 109–144). -/
structure FollowUpM where
  id : Nat
  lead_id : Nat
  scheduled_at : DT
  message_template : String
  channel : String
  status : String := "scheduled"
  sent_at : Option DT := none
  created_at : DT := 0

/-- The `extra_data` JSON blob attached to the scheduling analytics event
(`followup_scheduler.py`, lines 497–503). -/
structure ExtraData where
  followup_type : String
  priority : String
  lead_qualification_score : ℚ
  scheduled_hour : Nat
  scheduled_day_of_week : Nat

/-- A row of the `analytics` table as created in
`_record_followup_analytics` (lines 490–505). -/
structure AnalyticsM where
  metric_name : String
  metric_value : ℚ
  metric_type : String
  channel : Option String
  lead_category : Option String
  extra_data : ExtraData

/-- The whole database.  `next_followup_id` / `next_conversation_id` model
the autoincrement primary keys. -/
structure Store where
  leads : List LeadM := []
  conversations : List ConversationM := []
  followups : List FollowUpM := []
  analytics : List AnalyticsM := []
  next_followup_id : Nat := 1
  next_conversation_id : Nat := 1

/-- `Lead.update_interaction` (`lead.py`, lines 57–61). -/
def update_interaction (l : LeadM) (now : DT) : LeadM :=
  { l with last_interaction := some now,
           interaction_count := l.interaction_count + 1,
           updated_at := now }

/-! ## Pattern mining helpers (`followup_scheduler.py`, lines 465–484) -/

/-- Stable descending insertion by count: place `x` before the first
element with a strictly smaller count.  Folding this over the elements in
first-occurrence order reproduces `collections.Counter.most_common()`
(sorted by count descending, ties in first-insertion order). -/
def insert_desc_by {α : Type} (cnt : α → Nat) (x : α) :
    List α → List α
  | [] => [x]
  | y :: ys => if cnt y < cnt x then x :: y :: ys
               else y :: insert_desc_by cnt x ys

/-- `_get_most_common` (lines 465–472): distinct items ordered by
decreasing frequency, ties in first-occurrence order. -/
def get_most_common {α : Type} [DecidableEq α] (items : List α) :
    List α :=
  let uniq := items.foldl
    (fun acc x => if acc.contains x then acc else acc ++ [x]) []
  uniq.foldl (fun acc x => insert_desc_by (fun y => items.count y) x acc) []

/-- `_calculate_avg_response_time` (lines 474–484): mean gap in hours
between consecutive conversations, `None` below two samples. -/
def calculate_avg_response_time (ts : List DT) : Option ℚ :=
  if ts.length < 2 then none
  else
    let diffs := (ts.zip ts.tail).map
      (fun p => ((p.2 : ℚ) - (p.1 : ℚ)) / 60)
    if diffs.length = 0 then none else some (diffs.sum / diffs.length)

/-- Stable ascending insertion sort on `created_at`, modelling
`order_by(Conversation.created_at)`. -/
def insert_by_created_at (c : ConversationM) :
    List ConversationM → List ConversationM
  | [] => [c]
  | d :: ds => if c.created_at < d.created_at then c :: d :: ds
               else d :: insert_by_created_at c ds

/-- Sort conversations by `created_at` ascending (stable). -/
def sort_by_created_at (l : List ConversationM) : List ConversationM :=
  l.foldr insert_by_created_at []

/-- `_analyze_lead_response_patterns` (lines 151–178): the lead's own
inbound conversations, in `created_at` order. -/
def analyze_lead_response_patterns (s : Store) (lead : LeadM) :
    LeadPatterns :=
  let convs := sort_by_created_at (s.conversations.filter
    (fun c => c.lead_id == lead.id && c.direction == "inbound"))
  if convs.isEmpty then {}
  else
    { preferred_hours :=
        get_most_common (convs.map (fun c => time_of_day c.created_at / 60))
      preferred_days :=
        get_most_common (convs.map (fun c => week_day c.created_at))
      avg_response_time :=
        calculate_avg_response_time (convs.map (·.created_at))
      total_interactions := convs.length }

/-- `_analyze_segment_patterns` (lines 180–217): up to 100 other leads
sharing category, source or location (SQL `==` on a NULL value compiles to
`IS NULL`, which `Option` equality reproduces), then their pooled inbound
conversations. -/
def analyze_segment_patterns (s : Store) (lead : LeadM) :
    SegmentPatterns :=
  let similar := (s.leads.filter (fun l =>
    l.id != lead.id &&
    (l.category == lead.category || l.source == lead.source ||
     l.location == lead.location))).take 100
  if similar.isEmpty then {}
  else
    let ids := similar.map (·.id)
    let convs := s.conversations.filter
      (fun c => ids.contains c.lead_id && c.direction == "inbound")
    if convs.isEmpty then {}
    else
      { preferred_hours :=
          get_most_common (convs.map (fun c => time_of_day c.created_at / 60))
        preferred_days :=
          get_most_common (convs.map (fun c => week_day c.created_at))
        sample_size := convs.length }

/-- `_calculate_optimal_time` exactly as called from the orchestration
(lines 115–129): pattern analyses read from the store. -/
def calculate_optimal_time_store (s : Store) (lead : LeadM) (now : DT)
    (ft : FollowUpType) : DT :=
  calculate_optimal_time (analyze_lead_response_patterns s lead)
    (analyze_segment_patterns s lead) now ft

/-! ## Priority scoring (`followup_scheduler.py`, lines 299–397) -/

/-- `_calculate_engagement_level` (lines 333–343). -/
def calculate_engagement_level (lead : LeadM) : ℚ :=
  if lead.interaction_count = 0 then 0
  else
    let interaction_score := min ((lead.interaction_count : ℚ) / 10) 1
    let sentiment_score := (lead.sentiment_score + 1) / 2
    (interaction_score + sentiment_score) / 2

/-- `_calculate_time_urgency` (lines 345–356); `now` is
`datetime.utcnow()`. -/
def calculate_time_urgency (lead : LeadM) (now : DT) : ℚ :=
  match lead.last_interaction with
  | none => 1
  | some li =>
    let hours_since := ((now : ℚ) - (li : ℚ)) / 60
    min (hours_since / 72) 1

/-- The `intent_urgency_map` dict with its `.get(intent, 0.5)` default
(lines 369–380). -/
def intent_urgency_map (i : String) : ℚ :=
  if i = "demo_request" then 0.9
  else if i = "pricing_inquiry" then 0.8
  else if i = "product_inquiry" then 0.7
  else if i = "complaint" then 0.9
  else if i = "support_request" then 0.6
  else if i = "greeting" then 0.3
  else if i = "goodbye" then 0.1
  else if i = "general" then 0.4
  else 0.5

/-- The most recent conversation of a lead
(`order_by(created_at.desc()).first()`, lines 361–363); among equal
timestamps SQL leaves the choice open, the model keeps the first row. -/
def last_conversation (s : Store) (leadId : Nat) : Option ConversationM :=
  (s.conversations.filter (fun c => c.lead_id == leadId)).foldl
    (fun acc c =>
      match acc with
      | none => some c
      | some b => if b.created_at < c.created_at then some c else some b)
    none

/-- `_calculate_intent_urgency` (lines 358–380). -/
def calculate_intent_urgency (s : Store) (lead : LeadM) : ℚ :=
  match last_conversation s lead.id with
  | none => 0.5
  | some c =>
    match c.intent with
    | none => 0.5
    | some i => intent_urgency_map i

/-- `_get_source_quality_score` (lines 382–397); a `None` source is not a
dict key, so it gets the 0.5 default. -/
def get_source_quality_score (src : Option String) : ℚ :=
  match src with
  | none => 0.5
  | some s =>
    if s = "referral" then 0.9
    else if s = "website" then 0.8
    else if s = "linkedin" then 0.7
    else if s = "whatsapp" then 0.6
    else if s = "facebook" then 0.5
    else if s = "instagram" then 0.5
    else if s = "cold_call" then 0.3
    else if s = "email_campaign" then 0.4
    else if s = "unknown" then 0.2
    else 0.5

/-- The composite score accumulated in `_calculate_priority`
(lines 299–321), with the weights of lines 56–62 inlined as in the sums. -/
def priority_score (s : Store) (lead : LeadM) (now : DT) : ℚ :=
  (lead.qualification_score / 10) * 0.3
  + calculate_engagement_level lead * 0.25
  + calculate_time_urgency lead now * 0.2
  + calculate_intent_urgency s lead * 0.15
  + get_source_quality_score lead.source * 0.1

/-- The score→tier conversion at the end of `_calculate_priority`
(lines 323–331). -/
def score_to_priority (score : ℚ) : Priority :=
  if 0.8 ≤ score then .URGENT
  else if 0.6 ≤ score then .HIGH
  else if 0.4 ≤ score then .MEDIUM
  else .LOW

/-- `_calculate_priority` (lines 299–331). -/
def calculate_priority (s : Store) (lead : LeadM) (now : DT) : Priority :=
  score_to_priority (priority_score s lead now)

/-! ## Message generation and channel selection
(`followup_scheduler.py`, lines 399–463) -/

/-- The template table of `_generate_followup_message` (lines 402–438),
with the lead name interpolated. -/
def followup_templates (n : String) : FollowUpType → List String
  | .welcome =>
    [ "Olá " ++ n ++ "! Obrigado pelo seu interesse. Como posso ajudá-lo a encontrar a melhor solução?",
      "Oi " ++ n ++ "! Que bom ter você conosco. Tem alguma dúvida que posso esclarecer?",
      "Bem-vindo " ++ n ++ "! Estou aqui para ajudar com qualquer informação que precisar." ]
  | .nurturing =>
    [ "Oi " ++ n ++ "! Como você está? Gostaria de compartilhar algumas novidades que podem interessar você.",
      "Olá " ++ n ++ "! Espero que esteja bem. Tem algum projeto em mente que posso ajudar?",
      "Oi " ++ n ++ "! Pensei em você e trouxe algumas informações que podem ser úteis." ]
  | .qualification =>
    [ "Olá " ++ n ++ "! Para preparar a melhor proposta, pode me contar um pouco mais sobre suas necessidades?",
      "Oi " ++ n ++ "! Gostaria de entender melhor seu projeto para oferecer a solução ideal.",
      "Olá " ++ n ++ "! Que tal conversarmos sobre seus objetivos para eu ajudar da melhor forma?" ]
  | .proposal =>
    [ "Oi " ++ n ++ "! Preparei uma proposta personalizada para você. Quando podemos conversar?",
      "Olá " ++ n ++ "! Tenho uma proposta interessante baseada no que conversamos. Posso apresentar?",
      "Oi " ++ n ++ "! Finalizei sua proposta. Que tal agendarmos uma conversa?" ]
  | .closing =>
    [ "Olá " ++ n ++ "! Como ficou sua decisão sobre nossa proposta? Posso esclarecer alguma dúvida?",
      "Oi " ++ n ++ "! Gostaria de saber se precisa de mais alguma informação para decidir.",
      "Olá " ++ n ++ "! Estou aqui para ajudar com qualquer questão sobre nossa proposta." ]
  | .reactivation =>
    [ "Oi " ++ n ++ "! Faz um tempo que não conversamos. Como você está? Posso ajudar em algo?",
      "Olá " ++ n ++ "! Que saudade! Como andam seus projetos? Tem algo que posso apoiar?",
      "Oi " ++ n ++ "! Pensei em você. Como posso ajudar hoje?" ]
  | .feedback =>
    [ "Olá " ++ n ++ "! Como foi sua experiência conosco? Seu feedback é muito importante!",
      "Oi " ++ n ++ "! Gostaria de saber sua opinião sobre nosso atendimento. Como foi para você?",
      "Olá " ++ n ++ "! Pode compartilhar sua experiência? Queremos sempre melhorar!" ]

/-- `_generate_followup_message` (lines 399–442); the `random.choice`
index is supplied as the parameter `randIdx`. -/
def generate_followup_message (lead : LeadM) (ft : FollowUpType)
    (randIdx : Nat) : String :=
  let templates := followup_templates lead.name ft
  (templates.get? (randIdx % templates.length)).getD ""

/-- `_determine_ideal_channel` (lines 444–463): inbound channels by
descending message count (SQL leaves the tie order open, the model keeps
first-occurrence order); fallback `lead.source or 'whatsapp'`, where an
empty string is falsy like `None`. -/
def determine_ideal_channel (s : Store) (lead : LeadM) : String :=
  let inbound := s.conversations.filter
    (fun c => c.lead_id == lead.id && c.direction == "inbound")
  match get_most_common (inbound.map (·.channel)) with
  | best :: _ => best
  | [] =>
    match lead.source with
    | some src => if src = "" then "whatsapp" else src
    | none => "whatsapp"

/-- `_record_followup_analytics` (lines 486–507).  (The Python code only
`add`s the row to the session without a commit; the model registers it in
the store directly.) -/
def record_followup_analytics (s : Store) (lead : LeadM)
    (ft : FollowUpType) (priority : Priority) (scheduled : DT) : Store :=
  { s with analytics := s.analytics ++
      [ { metric_name := "followup_scheduled"
          metric_value := 1
          metric_type := "counter"
          channel := lead.source
          lead_category := lead.category
          extra_data :=
            { followup_type := ft.value
              priority := priority.pname
              lead_qualification_score := lead.qualification_score
              scheduled_hour := time_of_day scheduled / 60
              scheduled_day_of_week := week_day scheduled } } ] }

/-- The dictionary returned by `schedule_intelligent_followup`. -/
structure ScheduleResult where
  success : Bool
  error : Option String := none
  followup_id : Option Nat := none
  scheduled_at : Option DT := none
  channel : Option String := none
  priority : Option String := none
  message : Option String := none

/-- `schedule_intelligent_followup` (lines 64–113).  `now` is
`datetime.utcnow()`, `randIdx` resolves the `random.choice` in message
generation; `customMessage`/`priorityArg` are the optional caller
overrides (Python default `None`). -/
def schedule_intelligent_followup (s : Store) (now : DT) (randIdx : Nat)
    (leadId : Nat) (ft : FollowUpType) (customMessage : Option String)
    (priorityArg : Option Priority) : ScheduleResult × Store :=
  match s.leads.find? (fun l => l.id == leadId) with
  | none => ({ success := false, error := some "Lead não encontrado" }, s)
  | some lead =>
    let optimal := calculate_optimal_time_store s lead now ft
    let priority := priorityArg.getD (calculate_priority s lead now)
    let message := customMessage.getD
      (generate_followup_message lead ft randIdx)
    let channel := determine_ideal_channel s lead
    let fid := s.next_followup_id
    let fu : FollowUpM :=
      { id := fid, lead_id := leadId, scheduled_at := optimal,
        message_template := message, channel := channel,
        status := "scheduled", sent_at := none, created_at := now }
    let s1 := { s with followups := s.followups ++ [fu],
                       next_followup_id := fid + 1 }
    let s2 := record_followup_analytics s1 lead ft priority optimal
    ({ success := true, followup_id := some fid,
       scheduled_at := some optimal, channel := some channel,
       priority := some priority.pname, message := some message }, s2)

/-- The dictionary returned by `execute_followup`. -/
structure ExecuteResult where
  success : Bool
  error : Option String := none
  message : Option String := none
  sent_at : Option DT := none

/-- `execute_followup` (lines 535–574). -/
def execute_followup (s : Store) (now : DT) (followupId : Nat) :
    ExecuteResult × Store :=
  match s.followups.find? (fun f => f.id == followupId) with
  | none =>
    ({ success := false, error := some "Follow-up não encontrado" }, s)
  | some f =>
    if f.status ≠ "scheduled" then
      ({ success := false, error := some "Follow-up já foi executado" }, s)
    else
      let f' := { f with status := "sent", sent_at := some now }
      let followups' := s.followups.map
        (fun g => if g.id == followupId then f' else g)
      let s1 :=
        match s.leads.find? (fun l => l.id == f.lead_id) with
        | some lead =>
          let conv : ConversationM :=
            { id := s.next_conversation_id, lead_id := lead.id,
              channel := f.channel, direction := "outbound",
              message_content := f.message_template,
              intent := some "followup", created_at := now }
          { s with followups := followups',
                   conversations := s.conversations ++ [conv],
                   next_conversation_id := s.next_conversation_id + 1,
                   leads := s.leads.map (fun l =>
                     if l.id == lead.id then update_interaction l now
                     else l) }
        | none => { s with followups := followups' }
      ({ success := true,
         message := some "Follow-up executado com sucesso",
         sent_at := some now }, s1)

/-! ## NLP service (`src/services/nlp_service.py`) -/

/-- Python's `a in b` on strings: `a` occurs as a contiguous substring
of `b`. -/
def py_in (kw text : String) : Bool := decide (kw.data <:+: text.data)

/-- The exact-word test of `_detect_intent` (line 128):
`f' {keyword} ' in f' {text} '`. -/
def word_in (kw text : String) : Bool :=
  py_in (" " ++ kw ++ " ") (" " ++ text ++ " ")

/-- `self.intent_patterns` (`nlp_service.py`, lines 20–62), in the
dict's insertion order. -/
def intent_patterns : List (String × List String) :=
  [ ("greeting",
     ["olá", "oi", "bom dia", "boa tarde", "boa noite", "e aí", "tudo bem",
      "como vai", "prazer", "hello", "hi"]),
    ("product_inquiry",
     ["produto", "serviço", "oferta", "venda", "comprar", "preço", "valor",
      "custo", "quanto custa", "informação", "detalhes", "especificação",
      "catálogo", "disponível", "estoque"]),
    ("demo_request",
     ["demonstração", "demo", "teste", "experimentar", "ver funcionando",
      "apresentação", "mostrar", "exemplo", "trial", "versão de teste"]),
    ("pricing_inquiry",
     ["preço", "valor", "custo", "quanto", "orçamento", "cotação",
      "investimento", "plano", "pacote", "tabela de preços"]),
    ("support_request",
     ["ajuda", "suporte", "problema", "dúvida", "dificuldade", "erro",
      "não funciona", "bug", "assistência", "socorro"]),
    ("complaint",
     ["reclamação", "problema", "insatisfeito", "ruim", "péssimo",
      "não gostei", "decepcionado", "cancelar", "reembolso"]),
    ("compliment",
     ["parabéns", "excelente", "ótimo", "muito bom", "perfeito",
      "adorei", "gostei", "satisfeito", "recomendo"]),
    ("goodbye",
     ["tchau", "até logo", "até mais", "bye", "adeus", "falou",
      "até a próxima", "obrigado", "valeu"]),
    ("contact_info",
     ["contato", "telefone", "email", "endereço", "localização",
      "onde fica", "como falar", "whatsapp"]),
    ("availability",
     ["disponível", "horário", "quando", "prazo", "entrega",
      "funcionamento", "aberto", "fechado"]) ]

/-- The per-label keyword score of `_detect_intent` (lines 123–131):
for each keyword contained in the text, +2 when it also occurs
space-delimited, else +1. -/
def label_score (kws : List String) (text : String) : Nat :=
  kws.foldl
    (fun acc kw =>
      acc + (if py_in kw text then (if word_in kw text then 2 else 1)
             else 0)) 0

/-- Python `max(items, key=value)`: fold keeping the first pair whose
value is maximal (a later pair replaces the best only when strictly
greater). -/
def py_max_go (l : List (String × Nat)) (best : String × Nat) :
    String × Nat :=
  match l with
  | [] => best
  | p :: t => py_max_go t (if best.2 < p.2 then p else best)

/-- `_detect_intent` (lines 119–140): only labels with a positive score
enter `intent_scores`; `max(intent_scores, key=intent_scores.get)`
returns the first key attaining the maximum (dicts iterate in insertion
order); empty dict falls back to `'general'`. -/
def detect_intent (text : String) : String :=
  let scores := (intent_patterns.map
      (fun p => (p.1, label_score p.2 text))).filter (fun p => 0 < p.2)
  match scores with
  | [] => "general"
  | h :: t => (py_max_go t h).1

/-- Modelled from the spec (§4.1), for comparison with `detect_intent`:
per keyword, "2 if the keyword appears as a standalone word, 1 if it
appears (only) as a substring". -/
def spec_label_score (kws : List String) (text : String) : Nat :=
  (kws.map (fun kw =>
    if word_in kw text then 2 else if py_in kw text then 1 else 0)).sum

/-- Modelled from the spec (§4.1), for comparison with `detect_intent`:
"label with the maximum score; ties broken by first-seen label in the
label set's defined order; if all scores are 0, output `general`". -/
def spec_detect_intent (text : String) : String :=
  let scores := intent_patterns.map (fun p => (p.1, spec_label_score p.2 text))
  if scores.all (fun p => p.2 == 0) then "general"
  else
    match scores with
    | [] => "general"
    | h :: t => (py_max_go t h).1

/-- The sentiment record produced by `_analyze_sentiment`
(lines 166–193); polarity and subjectivity come from TextBlob and enter
as parameters, the label is derived on lines 175–180. -/
structure SentimentR where
  polarity : ℚ
  subjectivity : ℚ
  label : String

/-- The label classification of `_analyze_sentiment` (lines 175–180). -/
def mk_sentiment (polarity subjectivity : ℚ) : SentimentR :=
  { polarity := polarity
    subjectivity := subjectivity
    label := if 0.1 < polarity then "positive"
             else if polarity < -0.1 then "negative"
             else "neutral" }

/-- The two entity maps built by `_extract_entities` (lines 142–164):
spaCy label → matches, and custom pattern type → matches. -/
structure EntitiesM where
  spacy : List (String × List String) := []
  custom : List (String × List String) := []

/-- `_calculate_confidence` (lines 195–211). -/
def calculate_confidence (intent : String) (entities : EntitiesM)
    (sentiment : SentimentR) : ℚ :=
  let confidence : ℚ := 0.5
  let confidence := if intent ≠ "general" then confidence + 0.2
                    else confidence
  let confidence := if ¬entities.custom.isEmpty ∨ ¬entities.spacy.isEmpty
                    then confidence + 0.2 else confidence
  let confidence := if 0.3 < |sentiment.polarity| then confidence + 0.1
                    else confidence
  min confidence 1

/-- The dictionary returned by `should_escalate`. -/
structure EscalationVerdict where
  should_escalate : Bool
  reasons : List String
  priority : String
deriving DecidableEq, Repr

/-- `should_escalate` (lines 292–325).  `history` holds the `intent`
field of each entry of `conversation_history` (a nullable column);
`history and len(history) > 5` collapses to `5 < length`. -/
def should_escalate (intent : String) (sentiment : SentimentR)
    (confidence : ℚ) (history : List (Option String)) :
    EscalationVerdict :=
  let r1 := decide (confidence < 0.3)
  let r2 := intent == "complaint" && decide (sentiment.polarity < -0.5)
  let r3 := intent == "support_request" && decide (confidence < 0.5)
  let r4 := decide (5 < history.length) &&
    decide (3 ≤ (history.drop (history.length - 5)).count (some "general"))
  { should_escalate := r1 || r2 || r3 || r4
    reasons :=
      (if r1 then ["Baixa confiança na análise da mensagem"] else []) ++
      (if r2 then ["Reclamação com sentimento muito negativo"] else []) ++
      (if r3 then ["Pedido de suporte complexo"] else []) ++
      (if r4 then ["Múltiplas mensagens sem intenção clara"] else [])
    priority := if sentiment.polarity < -0.5 then "high" else "medium" }

/-- The name interpolation `f' {lead_name}' if lead_name else ''` used in
the response templates (an empty name is falsy like `None`). -/
def name_part (leadName : Option String) : String :=
  match leadName with
  | some n => if n = "" then "" else " " ++ n
  | none => ""

/-- The `response_templates` table of `generate_response`
(lines 218–274). -/
def response_templates (leadName : Option String) (intent : String) :
    List String :=
  let np := name_part leadName
  if intent = "greeting" then
    [ "Olá" ++ np ++ "! 😊 Como posso ajudá-lo hoje?",
      "Oi" ++ np ++ "! Que bom falar com você! Em que posso ser útil?",
      "Bom dia" ++ np ++ "! Estou aqui para ajudar. O que você gostaria de saber?" ]
  else if intent = "product_inquiry" then
    [ "Fico feliz em saber do seu interesse! Temos soluções incríveis que podem atender suas necessidades. Que tipo de produto ou serviço você está procurando?",
      "Que ótimo! Adoraria apresentar nossos produtos para você. Pode me contar um pouco mais sobre o que você precisa?",
      "Perfeito! Temos várias opções que podem ser ideais para você. Qual é o seu principal objetivo ou necessidade?" ]
  else if intent = "demo_request" then
    [ "Claro! Seria um prazer mostrar como nossa solução funciona. Quando seria um bom horário para você?",
      "Excelente ideia! Uma demonstração é a melhor forma de conhecer nosso produto. Você tem alguma preferência de horário?",
      "Perfeito! Vou agendar uma demo personalizada para você. Qual seria o melhor dia e horário?" ]
  else if intent = "pricing_inquiry" then
    [ "Entendo sua curiosidade sobre os valores! Temos opções flexíveis que se adaptam a diferentes necessidades. Posso preparar uma proposta personalizada para você?",
      "Ótima pergunta! Nossos preços variam conforme o pacote e necessidades específicas. Que tal conversarmos sobre suas necessidades para eu apresentar a melhor opção?",
      "Com certeza! Para dar o melhor preço, preciso entender melhor suas necessidades. Pode me contar um pouco sobre seu projeto?" ]
  else if intent = "support_request" then
    [ "Claro, estou aqui para ajudar! Pode me explicar qual dificuldade você está enfrentando?",
      "Sem problemas! Vamos resolver isso juntos. Me conta mais detalhes sobre o que está acontecendo?",
      "Entendo sua situação. Estou aqui para dar todo o suporte necessário. Qual é exatamente o problema?" ]
  else if intent = "complaint" then
    [ "Lamento muito que você tenha tido essa experiência. Sua satisfação é muito importante para nós. Pode me contar o que aconteceu para eu poder ajudar?",
      "Peço desculpas pelo inconveniente. Vamos resolver isso da melhor forma possível. Me explica a situação para eu entender melhor?",
      "Sinto muito por isso. Sua opinião é muito valiosa e queremos melhorar. Pode me dar mais detalhes sobre o problema?" ]
  else if intent = "compliment" then
    [ "Muito obrigado pelo feedback positivo! Fico muito feliz em saber que você está satisfeito. É isso que nos motiva a continuar melhorando!",
      "Que alegria receber esse retorno! Obrigado por compartilhar sua experiência positiva conosco!",
      "Fico emocionado com seu comentário! É muito gratificante saber que conseguimos atender suas expectativas!" ]
  else if intent = "goodbye" then
    [ "Foi um prazer conversar com você" ++ np ++ "! Qualquer coisa, estarei aqui. Tenha um ótimo dia! 😊",
      "Obrigado pela conversa" ++ np ++ "! Até logo e conte comigo sempre que precisar!",
      "Tchau" ++ np ++ "! Foi ótimo falar com você. Estarei sempre disponível para ajudar!" ]
  else if intent = "contact_info" then
    [ "Claro! Você pode entrar em contato conosco pelo WhatsApp, email ou telefone. Qual forma de contato você prefere?",
      "Sem problemas! Temos vários canais de atendimento disponíveis. Como você gostaria de manter contato?",
      "Perfeito! Estamos sempre disponíveis para conversar. Qual é a melhor forma de contato para você?" ]
  else if intent = "availability" then
    [ "Estamos disponíveis de segunda a sexta, das 8h às 18h. Mas pelo WhatsApp, sempre que possível, respondemos fora do horário também!",
      "Nosso atendimento funciona de segunda a sexta, das 8h às 18h. Posso ajudar você agora mesmo!",
      "Estamos aqui para você! Horário de atendimento: segunda a sexta, 8h às 18h. O que você precisa?" ]
  else
    [ "Entendi! Como posso ajudar você da melhor forma?",
      "Interessante! Me conta mais sobre isso para eu poder ajudar melhor.",
      "Certo! Estou aqui para ajudar. O que você gostaria de saber?" ]

/-- `generate_response` (lines 213–290): first template of the intent
(unknown intents fall back to the `general` templates), overridden by the
first empathetic response for negative sentiment outside
complaint/support. -/
def generate_response (intent : String) (sentiment : SentimentR)
    (leadName : Option String) : String :=
  let templates := response_templates leadName intent
  if sentiment.label = "negative" ∧ intent ≠ "complaint" ∧
      intent ≠ "support_request" then
    "Entendo sua preocupação. Estou aqui para ajudar da melhor forma possível."
  else
    (templates.get? 0).getD ""

/-! ## Message processing (`src/routes/chat.py`, `process_message`)

The embedding starts where the lead has been resolved (lines 53–129 of
`chat.py`); the analysis values supplied by the external NLP libraries
(intent keyword analysis aside, which is `detect_intent` above) enter as
parameters: `polarity`/`subjectivity` from TextBlob and the entity maps
from spaCy/regex. -/

/-- Descending `created_at` order (`order_by(desc(created_at))`),
as used for the 10-entry history window. -/
def sort_by_created_at_desc (l : List ConversationM) :
    List ConversationM :=
  (sort_by_created_at l).reverse

/-- `process_message` (`chat.py`, lines 53–129) for a message on
`channel` from the lead `lead`: analyse, decide escalation against the
last 10 conversations, record the inbound conversation, update the lead's
interaction counters and running average sentiment (the freshly added
conversation is visible to the average query through session autoflush;
`if avg_sentiment:` skips the update when the average is `None` or
exactly 0), and record the automatic reply when not escalated. -/
def process_message_for_lead (s : Store) (now : DT) (lead : LeadM)
    (channel message : String) (intent : String) (entities : EntitiesM)
    (sentiment : SentimentR) : Store :=
  let history := ((sort_by_created_at_desc (s.conversations.filter
      (fun c => c.lead_id == lead.id))).take 10).map (·.intent)
  let confidence := calculate_confidence intent entities sentiment
  let escalation := should_escalate intent sentiment confidence history
  let response_text := generate_response intent sentiment (some lead.name)
  let incoming : ConversationM :=
    { id := s.next_conversation_id, lead_id := lead.id, channel := channel,
      direction := "inbound", message_content := message,
      intent := some intent, sentiment := some sentiment.polarity,
      confidence := some confidence,
      is_escalated := escalation.should_escalate,
      escalation_reason :=
        if escalation.reasons.isEmpty then none
        else some (String.intercalate ", " escalation.reasons),
      created_at := now }
  let convs1 := s.conversations ++ [incoming]
  let lead1 := update_interaction lead now
  let vals := (convs1.filter (fun c => c.lead_id == lead.id)).filterMap
    (·.sentiment)
  let avg : Option ℚ :=
    if vals.isEmpty then none else some (vals.sum / vals.length)
  let lead2 :=
    match avg with
    | some a => if a ≠ 0 then { lead1 with sentiment_score := a } else lead1
    | none => lead1
  let convs2 :=
    if ¬escalation.should_escalate then
      convs1 ++
        [ { id := s.next_conversation_id + 1, lead_id := lead.id,
            channel := channel, direction := "outbound",
            message_content := response_text, intent := some "response",
            confidence := some confidence, created_at := now } ]
    else convs1
  { s with conversations := convs2,
           leads := s.leads.map (fun l =>
             if l.id == lead.id then lead2 else l),
           next_conversation_id :=
             if ¬escalation.should_escalate then s.next_conversation_id + 2
             else s.next_conversation_id + 1 }

/-! ## Claims -/

/-- C3: the score→priority mapping partitions [0,1] with inclusive lower
bounds and no gaps or overlaps: ≥ 0.8 URGENT, [0.6, 0.8) HIGH,
[0.4, 0.6) MEDIUM, < 0.4 LOW; in particular 0.0 → LOW, 0.79 → HIGH and
exactly 0.8 → URGENT. -/
theorem C3_priority_tiers (q : ℚ) :
    (0.8 ≤ q → score_to_priority q = .URGENT) ∧
    (0.6 ≤ q ∧ q < 0.8 → score_to_priority q = .HIGH) ∧
    (0.4 ≤ q ∧ q < 0.6 → score_to_priority q = .MEDIUM) ∧
    (q < 0.4 → score_to_priority q = .LOW) ∧
    score_to_priority 0 = .LOW ∧
    score_to_priority 0.79 = .HIGH ∧
    score_to_priority 0.8 = .URGENT := by
  refine ⟨fun h => ?_, fun h => ?_, fun h => ?_, fun h => ?_,
    by norm_num [score_to_priority], by norm_num [score_to_priority],
    by norm_num [score_to_priority]⟩ <;>
  · simp only [score_to_priority]
    split_ifs <;> first | rfl | (exfalso; push_neg at *; linarith [h])

/-- Witness for C3: the boundary value 0.8 satisfies the URGENT branch. -/
theorem C3_priority_tiers_witness :
    (0.8 : ℚ) ≤ 0.8 ∧ score_to_priority 0.8 = .URGENT :=
  ⟨by norm_num, (C3_priority_tiers 0.8).1 (by norm_num)⟩

/-- C5: the confidence estimator is the pure total function
`min(0.5 + 0.2·[intent ≠ general] + 0.2·[some entity map non-empty]
+ 0.1·[|polarity| > 0.3], 1.0)`, and its value always lies in [0, 1]. -/
theorem C5_confidence (intent : String) (entities : EntitiesM)
    (sentiment : SentimentR) :
    calculate_confidence intent entities sentiment =
      min (0.5 + (if intent ≠ "general" then (0.2 : ℚ) else 0)
            + (if ¬entities.custom.isEmpty ∨ ¬entities.spacy.isEmpty
               then (0.2 : ℚ) else 0)
            + (if 0.3 < |sentiment.polarity| then (0.1 : ℚ) else 0)) 1 ∧
    0 ≤ calculate_confidence intent entities sentiment ∧
    calculate_confidence intent entities sentiment ≤ 1 := by
  simp only [calculate_confidence]
  split_ifs <;>
    exact ⟨by norm_num, le_min (by norm_num) (by norm_num),
      min_le_right _ _⟩

/-- C7: scheduling a follow-up for an unknown lead id returns the
not-found failure and leaves the entire store unchanged — no follow-up,
conversation or analytics row is added and no lead is mutated. -/
theorem C7_unknown_lead (s : Store) (now : DT) (randIdx leadId : Nat)
    (ft : FollowUpType) (customMessage : Option String)
    (priorityArg : Option Priority)
    (h : s.leads.find? (fun l => l.id == leadId) = none) :
    schedule_intelligent_followup s now randIdx leadId ft customMessage
      priorityArg =
      ({ success := false, error := some "Lead não encontrado" }, s) := by
  simp only [schedule_intelligent_followup, h]

/-- Witness for C7: the empty store resolves no lead id. -/
theorem C7_unknown_lead_witness :
    ({} : Store).leads.find? (fun l => l.id == 1) = none ∧
    schedule_intelligent_followup {} 0 0 1 .welcome none none =
      ({ success := false, error := some "Lead não encontrado" }, {}) :=
  ⟨rfl, C7_unknown_lead {} 0 0 1 .welcome none none rfl⟩

/-- C8: executing a follow-up whose status is not `scheduled` returns
the state-conflict failure and performs no mutation at all: the store —
hence the follow-up's status and `sent_at`, the conversation list and
the lead's interaction counters — is returned unchanged. -/
theorem C8_execute_conflict (s : Store) (now : DT) (followupId : Nat)
    (f : FollowUpM)
    (hf : s.followups.find? (fun g => g.id == followupId) = some f)
    (hs : f.status ≠ "scheduled") :
    execute_followup s now followupId =
      ({ success := false, error := some "Follow-up já foi executado" },
       s) := by
  simp only [execute_followup, hf]
  rw [if_pos hs]

/-- An already-sent follow-up row, fixture for the C8 witness. -/
def sent_followup : FollowUpM :=
  { id := 1, lead_id := 1, scheduled_at := 0, message_template := "m",
    channel := "whatsapp", status := "sent", sent_at := some 5 }

/-- A store holding only `sent_followup`, fixture for the C8 witness. -/
def sent_followup_store : Store := { followups := [sent_followup] }

/-- Witness for C8: a store holding a single already-sent follow-up. -/
theorem C8_execute_conflict_witness :
    sent_followup_store.followups.find? (fun g => g.id == 1) =
      some sent_followup ∧
    sent_followup.status ≠ "scheduled" ∧
    execute_followup sent_followup_store 7 1 =
      ({ success := false, error := some "Follow-up já foi executado" },
       sent_followup_store) :=
  ⟨rfl, by decide, C8_execute_conflict _ 7 1 _ rfl (by decide)⟩

/-- C6: the escalation verdict is the additive, order-independent
evaluation of the four rules — `should_escalate` is true iff at least one
rule triggers, each triggering rule appends its reason, and the priority
is `high` iff polarity < −0.5, else `medium`; in particular confidence
0.2 with intent `general` escalates with the low-confidence reason, and
confidence 0.9 with intent `greeting` and polarity 0.5 does not
escalate. -/
theorem C6_escalation (intent : String) (sentiment : SentimentR)
    (confidence : ℚ) (history : List (Option String)) :
    ((should_escalate intent sentiment confidence history).should_escalate
        = true ↔
      (confidence < 0.3 ∨
       (intent = "complaint" ∧ sentiment.polarity < -0.5) ∨
       (intent = "support_request" ∧ confidence < 0.5) ∨
       (5 < history.length ∧
        3 ≤ (history.drop (history.length - 5)).count (some "general")))) ∧
    ((should_escalate intent sentiment confidence history).reasons =
      (if confidence < 0.3
       then ["Baixa confiança na análise da mensagem"] else []) ++
      (if intent = "complaint" ∧ sentiment.polarity < -0.5
       then ["Reclamação com sentimento muito negativo"] else []) ++
      (if intent = "support_request" ∧ confidence < 0.5
       then ["Pedido de suporte complexo"] else []) ++
      (if 5 < history.length ∧
          3 ≤ (history.drop (history.length - 5)).count (some "general")
       then ["Múltiplas mensagens sem intenção clara"] else [])) ∧
    ((should_escalate intent sentiment confidence history).priority =
      if sentiment.polarity < -0.5 then "high" else "medium") ∧
    (should_escalate "general" (mk_sentiment 0 0) 0.2 []).should_escalate
        = true ∧
    (should_escalate "general" (mk_sentiment 0 0) 0.2 []).reasons =
      ["Baixa confiança na análise da mensagem"] ∧
    (should_escalate "greeting" (mk_sentiment 0.5 0.5) 0.9
      []).should_escalate = false := by
  refine ⟨?_, ?_, ?_, ?_, ?_, ?_⟩
  · simp [should_escalate, or_assoc]
  · simp only [should_escalate, Bool.and_eq_true, beq_iff_eq,
      decide_eq_true_eq]
  · simp [should_escalate]
  · norm_num [should_escalate, mk_sentiment]
  · norm_num [should_escalate, mk_sentiment]
    all_goals decide
  · norm_num [should_escalate, mk_sentiment]

/-- C10: the confidence estimator never returns below 0.5, hence the
escalation policy's low-confidence rule can never fire on an
`analyze_message` result: such an escalation can only come from the
complaint, support-request or repeated-unclear-intent rules. -/
theorem C10_low_confidence_unreachable (intent : String)
    (entities : EntitiesM) (sentiment : SentimentR)
    (history : List (Option String)) :
    0.5 ≤ calculate_confidence intent entities sentiment ∧
    "Baixa confiança na análise da mensagem" ∉
      (should_escalate intent sentiment
        (calculate_confidence intent entities sentiment) history).reasons ∧
    ((should_escalate intent sentiment
        (calculate_confidence intent entities sentiment)
        history).should_escalate = true →
      (intent = "complaint" ∧ sentiment.polarity < -0.5) ∨
      (intent = "support_request" ∧
        calculate_confidence intent entities sentiment < 0.5) ∨
      (5 < history.length ∧
        3 ≤ (history.drop (history.length - 5)).count (some "general"))) := by
  have hc : 0.5 ≤ calculate_confidence intent entities sentiment := by
    simp only [calculate_confidence]
    split_ifs <;> exact le_min (by norm_num) (by norm_num)
  have hr1 : ¬ (calculate_confidence intent entities sentiment < 0.3) := by
    push_neg
    linarith
  refine ⟨hc, ?_, ?_⟩
  · simp only [should_escalate, Bool.and_eq_true, beq_iff_eq,
      decide_eq_true_eq]
    rw [if_neg hr1]
    simp only [List.nil_append]
    split_ifs <;> decide
  · intro h
    simp only [should_escalate, Bool.or_eq_true, Bool.and_eq_true,
      decide_eq_true_eq, beq_iff_eq, or_assoc] at h
    rcases h with h | h | h | h
    · exact absurd h hr1
    · exact Or.inl h
    · exact Or.inr (Or.inl h)
    · exact Or.inr (Or.inr h)

/-- Lead patterns of a lead whose three inbound messages all arrived in
the 18:00 hour — fixture for the C1 counterexample. -/
def evening_lead_patterns : LeadPatterns :=
  { preferred_hours := [18], preferred_days := [0],
    avg_response_time := none, total_interactions := 3 }

/-- C1 counterexample: for a lead whose preferred hour is 18, the
optimal `welcome` time computed from `now` = Monday 00:00 has time-of-day
exactly 18:00 (minute 1080), which is *not* strictly within
[09:00, 18:00) as the claim requires (`_adjust_to_business_hours` only
moves times strictly past 18:00). -/
theorem C1_welcome_counterexample :
    ¬ (time_of_day (calculate_optimal_time evening_lead_patterns {} 0
        .welcome) < 1080) := by
  decide

/-- C1 amended: for every pair of mined patterns (hence every lead
history; preferred hours are genuine hours < 24, as `created_at.hour`
always is) and every `now`, the optimal `welcome` time carries no
preferred-day adjustment, and it falls on a weekday with time-of-day in
the *closed* interval [09:00, 18:00] and outside [12:00, 14:00) — 18:00
itself and the lunch-end 14:00 are reachable. -/
theorem C1_welcome_business_hours (lp : LeadPatterns)
    (sp : SegmentPatterns) (now : DT)
    (hlp : ∀ h ∈ lp.preferred_hours, h < 24)
    (hsp : ∀ h ∈ sp.preferred_hours, h < 24) :
    get_optimal_day lp sp .welcome = none ∧
    week_day (calculate_optimal_time lp sp now .welcome) < 5 ∧
    540 ≤ time_of_day (calculate_optimal_time lp sp now .welcome) ∧
    time_of_day (calculate_optimal_time lp sp now .welcome) ≤ 1080 ∧
    ¬(720 ≤ time_of_day (calculate_optimal_time lp sp now .welcome) ∧
      time_of_day (calculate_optimal_time lp sp now .welcome) < 840) := by
  have hday : get_optimal_day lp sp .welcome = none := by
    simp [get_optimal_day]
  have heq : calculate_optimal_time lp sp now .welcome =
      adjust_to_business_hours (replace_time (now + 120)
        ((get_optimal_hour lp sp).1 * 60 + (get_optimal_hour lp sp).2)) := by
    simp [calculate_optimal_time, hday, default_intervals]
  obtain ⟨h1, h2, h3, h4⟩ := adjust_to_business_hours_invariant
    (replace_time (now + 120)
      ((get_optimal_hour lp sp).1 * 60 + (get_optimal_hour lp sp).2))
  rw [heq]
  exact ⟨hday, h1, h2, h3, h4⟩

/-- Witness for C1: the counterexample patterns satisfy the hour bound
and yield a weekday. -/
theorem C1_welcome_business_hours_witness :
    (∀ h ∈ evening_lead_patterns.preferred_hours, h < 24) ∧
    week_day (calculate_optimal_time evening_lead_patterns {} 0
      .welcome) < 5 :=
  ⟨by decide,
    (C1_welcome_business_hours evening_lead_patterns {} 0 (by decide)
      (by decide)).2.1⟩

/-- The lead of the C2 scenario: qualification 8, 12 interactions,
average sentiment 0.5, last interaction 10 hours (600 minutes) before
`now = 100000`, acquired through a referral. -/
def c2_lead : LeadM :=
  { id := 1, name := "Maria", qualification_score := 8,
    interaction_count := 12, sentiment_score := 0.5,
    last_interaction := some 99400, source := some "referral" }

/-- The most recent conversation of the C2 scenario lead: intent
`demo_request`. -/
def c2_conversation : ConversationM :=
  { id := 1, lead_id := 1, channel := "whatsapp",
    direction := "inbound", message_content := "quero uma demo",
    intent := some "demo_request", sentiment := some 0.5,
    created_at := 99000 }

/-- Store for the C2 scenario. -/
def c2_store : Store :=
  { leads := [c2_lead], conversations := [c2_conversation],
    next_conversation_id := 2 }

/-- The exact composite score of the C2 scenario:
0.8·0.3 + ((1 + 0.75)/2)·0.25 + (10/72)·0.2 + 0.9·0.15 + 0.9·0.1
= 5123/7200 ≈ 0.7115. -/
theorem c2_score_eval : priority_score c2_store c2_lead 100000 =
    5123 / 7200 := by
  norm_num [priority_score, c2_store, c2_lead, c2_conversation,
    calculate_engagement_level, calculate_time_urgency,
    calculate_intent_urgency, last_conversation, intent_urgency_map,
    get_source_quality_score, min_def]

/-- C2 counterexample: in the claimed scenario the composite score is
strictly below 0.8 and the computed tier is not URGENT. -/
theorem C2_scenario_counterexample :
    priority_score c2_store c2_lead 100000 < 0.8 ∧
    calculate_priority c2_store c2_lead 100000 ≠ Priority.URGENT := by
  rw [calculate_priority, c2_score_eval]
  norm_num [score_to_priority]
  all_goals decide

/-- C2 amended: in the claimed scenario the composite score is exactly
5123/7200 ≈ 0.7115, which lies in [0.6, 0.8), so the computed tier is
HIGH, not URGENT. -/
theorem C2_scenario_high :
    priority_score c2_store c2_lead 100000 = 5123 / 7200 ∧
    (0.6 : ℚ) ≤ priority_score c2_store c2_lead 100000 ∧
    priority_score c2_store c2_lead 100000 < 0.8 ∧
    calculate_priority c2_store c2_lead 100000 = Priority.HIGH := by
  rw [calculate_priority, c2_score_eval]
  norm_num [score_to_priority]

/-! ### C4: the intent classifier matches its specification -/

/-- Dropping one final element from both sides of a concat equation. -/
lemma concat_inj_left {α : Type} {a b : List α} {c d : α}
    (h : a ++ [c] = b ++ [d]) : a = b := by
  have h' := congrArg List.dropLast h
  simpa using h'

/-- An occurrence of the delimiter-padded keyword inside the
delimiter-padded text always places the raw keyword inside the raw text:
the padded keyword occupies `|kw| + 2` consecutive positions of
`x :: text ++ [x]`, so its inner `kw` block lies entirely within the
`text` region. -/
lemma infix_of_pad_infix {α : Type} (x : α) (kw text : List α)
    (h : (x :: (kw ++ [x])) <:+: (x :: (text ++ [x]))) :
    kw <:+: text := by
  obtain ⟨s, t, h⟩ := h
  cases s with
  | nil =>
    simp only [List.nil_append, List.cons_append, List.cons.injEq] at h
    obtain ⟨-, h⟩ := h
    rcases List.eq_nil_or_concat' t with rfl | ⟨t', c, rfl⟩
    · simp only [List.append_nil] at h
      have : kw = text := concat_inj_left h
      exact this ▸ List.infix_rfl
    · have h' : (kw ++ [x] ++ t') ++ [c] = text ++ [x] := by
        simpa [List.append_assoc] using h
      have : kw ++ [x] ++ t' = text := concat_inj_left h'
      exact ⟨[], [x] ++ t', by simpa [List.append_assoc] using this⟩
  | cons y s' =>
    simp only [List.cons_append, List.cons.injEq] at h
    obtain ⟨rfl, h⟩ := h
    rcases List.eq_nil_or_concat' t with rfl | ⟨t', c, rfl⟩
    · have h' : (s' ++ y :: kw) ++ [y] = text ++ [y] := by
        simpa [List.append_assoc] using h
      have : s' ++ y :: kw = text := concat_inj_left h'
      exact ⟨s' ++ [y], [], by simpa [List.append_assoc] using this⟩
    · have h' : (s' ++ y :: kw ++ y :: t') ++ [c] = text ++ [y] := by
        simpa [List.append_assoc] using h
      have : s' ++ y :: kw ++ y :: t' = text := concat_inj_left h'
      exact ⟨s' ++ [y], y :: t', by simpa [List.append_assoc] using this⟩

/-- A keyword that occurs as a space-delimited word occurs in
particular as a substring. -/
lemma py_in_of_word_in (kw text : String) (h : word_in kw text = true) :
    py_in kw text = true := by
  simp only [word_in, py_in, decide_eq_true_eq, String.data_append] at h ⊢
  exact infix_of_pad_infix ' ' kw.data text.data (by simpa using h)

/-- Per-keyword: the spec's reading ("2 if standalone word, 1 if only a
substring") computes the same contribution as the code's nested test. -/
lemma keyword_score_eq (kw text : String) :
    (if word_in kw text then 2 else if py_in kw text then 1 else 0) =
      (if py_in kw text then (if word_in kw text then 2 else 1)
       else 0) := by
  by_cases hw : word_in kw text = true
  · rw [if_pos hw, if_pos (py_in_of_word_in kw text hw), if_pos hw]
  · rw [if_neg hw]
    by_cases hp : py_in kw text = true
    · rw [if_pos hp, if_pos hp, if_neg hw]
    · rw [if_neg hp, if_neg hp]

/-- A left fold of additions is the starting value plus the sum of the
mapped list. -/
lemma foldl_add_eq_sum {α : Type} (f : α → Nat) (l : List α)
    (n : Nat) : l.foldl (fun acc x => acc + f x) n = n + (l.map f).sum := by
  induction l generalizing n with
  | nil => simp
  | cons a l ih => simp [ih]; omega

/-- The spec's per-label score coincides with the code's. -/
lemma spec_label_score_eq (kws : List String) (text : String) :
    spec_label_score kws text = label_score kws text := by
  unfold spec_label_score label_score
  rw [foldl_add_eq_sum, Nat.zero_add]
  exact congrArg List.sum (List.map_eq_map_iff.mpr
    (fun kw _ => keyword_score_eq kw text))

/-- Unfolding `py_max_go` one step. -/
lemma py_max_go_cons (p : String × Nat) (t : List (String × Nat))
    (b : String × Nat) :
    py_max_go (p :: t) b = py_max_go t (if b.2 < p.2 then p else b) := rfl

/-- Entries with score 0 never displace the running best, so filtering
them out does not change the fold. -/
lemma py_max_go_filter (l : List (String × Nat)) (b : String × Nat) :
    py_max_go (l.filter (fun p => 0 < p.2)) b = py_max_go l b := by
  induction l generalizing b with
  | nil => rfl
  | cons p t ih =>
    rw [List.filter_cons]
    by_cases hp : 0 < p.2
    · rw [if_pos (by simpa using hp), py_max_go_cons, py_max_go_cons, ih]
    · have hp0 : p.2 = 0 := by omega
      rw [if_neg (by simpa using hp), py_max_go_cons,
        if_neg (by omega), ih]

/-- Two zero-score starting candidates give the same first-maximum as
soon as some entry has a positive score. -/
lemma py_max_go_zero_congr (l : List (String × Nat))
    (b c : String × Nat) (hb : b.2 = 0) (hc : c.2 = 0)
    (hl : ∃ p ∈ l, 0 < p.2) : py_max_go l b = py_max_go l c := by
  induction l generalizing b c with
  | nil => simp at hl
  | cons p t ih =>
    rw [py_max_go_cons, py_max_go_cons]
    by_cases hp : 0 < p.2
    · rw [if_pos (by omega), if_pos (by omega)]
    · have hp0 : p.2 = 0 := by omega
      rw [if_neg (by omega), if_neg (by omega)]
      refine ih b c hb hc ?_
      obtain ⟨q, hq, hq2⟩ := hl
      rcases List.mem_cons.mp hq with rfl | hq'
      · omega
      · exact ⟨q, hq', hq2⟩

/-- C4: the intent classifier is a deterministic total function (it is a
pure Lean function of the text) computing exactly the spec's rule:
per-label keyword scores (2 for a standalone-word occurrence, 1 for a
mere substring occurrence), maximum label with ties broken by the first
label in the pattern table's order, and `general` when every label
scores 0 — `detect_intent` coincides with the spec-side
`spec_detect_intent` on every text. -/
theorem C4_intent_classifier (text : String) :
    detect_intent text = spec_detect_intent text := by
  simp only [detect_intent, spec_detect_intent, spec_label_score_eq]
  generalize intent_patterns.map
    (fun p => (p.1, label_score p.2 text)) = l
  by_cases hz : l.all (fun p => p.2 == 0) = true
  · have hfil : l.filter (fun p => 0 < p.2) = [] := by
      rw [List.filter_eq_nil_iff]
      intro p hp
      have := List.all_eq_true.mp hz p hp
      simp only [beq_iff_eq] at this
      simp [this]
    rw [hfil, if_pos hz]
  · rw [if_neg hz]
    have hex : ∃ p ∈ l, 0 < p.2 := by
      rw [List.all_eq_true] at hz
      push_neg at hz
      obtain ⟨p, hp, hne⟩ := hz
      refine ⟨p, hp, Nat.pos_of_ne_zero ?_⟩
      intro h0
      apply hne
      simp [h0]
    cases l with
    | nil => simp at hex
    | cons h t =>
      by_cases hh : 0 < h.2
      · rw [List.filter_cons, if_pos (by simpa using hh)]
        show (py_max_go (t.filter fun p => 0 < p.2) h).1 =
          (py_max_go t h).1
        rw [py_max_go_filter]
      · have hh0 : h.2 = 0 := by omega
        have hext : ∃ p ∈ t, 0 < p.2 := by
          obtain ⟨q, hq, hq2⟩ := hex
          rcases List.mem_cons.mp hq with rfl | hq'
          · omega
          · exact ⟨q, hq', hq2⟩
        rw [List.filter_cons, if_neg (by simpa using hh)]
        cases hft : t.filter (fun p => 0 < p.2) with
        | nil =>
          obtain ⟨q, hq, hq2⟩ := hext
          have hmemf : q ∈ t.filter (fun p => 0 < p.2) :=
            List.mem_filter.mpr ⟨hq, by simpa using hq2⟩
          rw [hft] at hmemf
          simp at hmemf
        | cons h' t' =>
          show (py_max_go t' h').1 = (py_max_go t h).1
          have hh' : 0 < h'.2 := by
            have hm : h' ∈ t.filter (fun p => 0 < p.2) := by
              rw [hft]
              exact List.mem_cons_self _ _
            simpa using (List.mem_filter.mp hm).2
          have e1 : py_max_go t' h' =
              py_max_go (h' :: t') (("", 0) : String × Nat) := by
            rw [py_max_go_cons, if_pos (by simpa using hh')]
          rw [e1, ← hft, py_max_go_filter]
          exact congrArg Prod.fst
            (py_max_go_zero_congr t ("", 0) h rfl hh0 hext)

/-- Witness for C10: a plain greeting analysis has confidence ≥ 0.5. -/
theorem C10_low_confidence_unreachable_witness :
    (0.5 : ℚ) ≤ calculate_confidence "greeting" {} (mk_sentiment 0 0) :=
  (C10_low_confidence_unreachable "greeting" {} (mk_sentiment 0 0) []).1

/-! ### C9: the running average sentiment -/

/-- The non-null per-conversation sentiment values of a lead, in store
order (the quantity `process_message` averages on lines 100–107 of
`chat.py`). -/
def lead_sentiments (s : Store) (leadId : Nat) : List ℚ :=
  (s.conversations.filter (fun c => c.lead_id == leadId)).filterMap
    (·.sentiment)

/-- C9 amended: after processing an inbound message the stored
`sentiment_score` equals the arithmetic mean of all non-null
per-conversation sentiments of the lead *provided that mean is not
exactly 0* (`if avg_sentiment:` discards a zero mean, keeping the stale
value). -/
theorem C9_running_average (s : Store) (now : DT) (lead : LeadM)
    (channel message intent : String) (entities : EntitiesM)
    (sentiment : SentimentR)
    (h0 : (lead_sentiments (process_message_for_lead s now lead channel
          message intent entities sentiment) lead.id).sum /
        ((lead_sentiments (process_message_for_lead s now lead channel
          message intent entities sentiment) lead.id).length : ℚ) ≠ 0) :
    ((process_message_for_lead s now lead channel message intent entities
        sentiment).leads.find? (fun l => l.id == lead.id)).map
        (·.sentiment_score) =
      (s.leads.find? (fun l => l.id == lead.id)).map (fun _ =>
        (lead_sentiments (process_message_for_lead s now lead channel
            message intent entities sentiment) lead.id).sum /
        ((lead_sentiments (process_message_for_lead s now lead channel
            message intent entities sentiment) lead.id).length : ℚ)) := by
  by_cases hE : (should_escalate intent sentiment
      (calculate_confidence intent entities sentiment)
      (((sort_by_created_at_desc (s.conversations.filter
        (fun c => c.lead_id == lead.id))).take 10).map
        (·.intent))).should_escalate = true <;>
    simp only [process_message_for_lead, lead_sentiments, hE,
      List.filter_append, List.filterMap_append, beq_self_eq_true,
      List.filter_cons, List.filter_nil, List.filterMap_cons,
      List.filterMap_nil, not_true, not_false_iff, if_true, if_false,
      ite_true, ite_false, Bool.false_eq_true, Bool.true_eq_false,
      not_false_eq_true, not_true_eq_false, List.append_nil,
      List.isEmpty_cons, Bool.and_false] at h0 ⊢ <;>
  · set prev := (s.conversations.filter
      (fun c => c.lead_id == lead.id)).filterMap (fun x => x.sentiment)
      with hprev
    set M := (prev ++ [sentiment.polarity]).sum /
      ((prev ++ [sentiment.polarity]).length : ℚ) with hM
    have hne : (prev ++ [sentiment.polarity]).isEmpty = false := by simp
    simp only [hne, Bool.false_eq_true, if_false, ite_false, ne_eq, h0,
      not_false_iff, if_true, ite_true]
    rw [List.find?_map]
    have hpg : ((fun l : LeadM => l.id == lead.id) ∘
        (fun l : LeadM => if (l.id == lead.id) = true then
          { id := (update_interaction lead now).id,
            name := (update_interaction lead now).name,
            qualification_score :=
              (update_interaction lead now).qualification_score,
            category := (update_interaction lead now).category,
            location := (update_interaction lead now).location,
            last_interaction :=
              (update_interaction lead now).last_interaction,
            interaction_count :=
              (update_interaction lead now).interaction_count,
            sentiment_score := M,
            source := (update_interaction lead now).source,
            updated_at := (update_interaction lead now).updated_at }
          else l)) = fun l : LeadM => l.id == lead.id := by
      funext l0
      by_cases hl0 : l0.id = lead.id <;>
        simp [hl0, update_interaction]
    rw [hpg]
    cases hfind : s.leads.find? (fun l => l.id == lead.id) with
    | none => rfl
    | some l0 =>
      have hl0 : l0.id = lead.id := by
        simpa using (List.find?_some hfind)
      simp [hl0, update_interaction]

/-- C9 counterexample lead: stored average sentiment 0.3. -/
def c9_lead : LeadM := { id := 1, name := "Ana", sentiment_score := 0.3 }

/-- C9 counterexample history: one inbound conversation with
sentiment 0.3. -/
def c9_conversation : ConversationM :=
  { id := 1, lead_id := 1, channel := "whatsapp",
    direction := "inbound", message_content := "bom",
    sentiment := some 0.3, created_at := 100 }

/-- C9 counterexample store. -/
def c9_store : Store :=
  { leads := [c9_lead], conversations := [c9_conversation],
    next_conversation_id := 2 }

/-- The C9 counterexample store after processing an inbound message
with polarity −0.3. -/
abbrev c9_processed : Store :=
  process_message_for_lead c9_store 200 c9_lead "whatsapp" "nada bom"
    "greeting" {} (mk_sentiment (-0.3) 0)

/-- C9 counterexample: after processing a message with polarity −0.3
for a lead whose history holds one sentiment 0.3, the mean of all
non-null sentiments is (0.3 − 0.3)/2 = 0, but `if avg_sentiment:`
treats 0.0 as falsy, so the stored value remains the stale 0.3 —
the stored running average does not equal the mean. -/
theorem C9_counterexample :
    lead_sentiments c9_processed 1 = [0.3, -0.3] ∧
    (lead_sentiments c9_processed 1).sum /
      ((lead_sentiments c9_processed 1).length : ℚ) = 0 ∧
    (c9_processed.leads.find? (fun l => l.id == 1)).map
      (·.sentiment_score) = some 0.3 ∧
    (0.3 : ℚ) ≠ 0 := by
  have habs : |(3 / 10 : ℚ)| = 3 / 10 := abs_of_nonneg (by norm_num)
  have hs1 : ¬("greeting" : String) = "general" := by decide
  have hs2 : ¬("greeting" : String) = "support_request" := by decide
  have hs3 : ¬("greeting" : String) = "complaint" := by decide
  refine ⟨?_, ?_, ?_, by norm_num⟩ <;>
    norm_num [process_message_for_lead, lead_sentiments, c9_store,
      c9_lead, c9_conversation, sort_by_created_at_desc,
      sort_by_created_at, insert_by_created_at, calculate_confidence,
      should_escalate, mk_sentiment, update_interaction,
      generate_response, response_templates, name_part, List.find?,
      habs, min_def, hs1, hs2, hs3, List.filterMap_cons,
      List.filterMap_nil, List.filter_cons, List.filter_nil,
      List.find?_cons, List.sum_cons, List.sum_nil, Option.map_some]

/-- C9 witness lead. -/
def c9w_lead : LeadM := { id := 1, name := "Bia" }

/-- C9 witness history: an inbound conversation with sentiment 0.2 and
an outbound one with null sentiment. -/
def c9w_store : Store :=
  { leads := [c9w_lead],
    conversations :=
      [ { id := 1, lead_id := 1, channel := "whatsapp",
          direction := "inbound", message_content := "oi",
          sentiment := some 0.2, created_at := 100 },
        { id := 2, lead_id := 1, channel := "whatsapp",
          direction := "outbound", message_content := "resp",
          sentiment := none, created_at := 150 } ],
    next_conversation_id := 3 }

/-- The C9 witness store after processing an inbound message with
polarity −0.4: the per-conversation sentiments are [0.2, −0.4, null]. -/
abbrev c9w_processed : Store :=
  process_message_for_lead c9w_store 200 c9w_lead "whatsapp" "hm"
    "greeting" {} (mk_sentiment (-0.4) 0)

/-- Witness for C9: with sentiments [0.2, −0.4, null] the mean is
−0.1 ≠ 0 and the stored running average is updated to it. -/
theorem C9_running_average_witness :
    (lead_sentiments c9w_processed c9w_lead.id).sum /
      ((lead_sentiments c9w_processed c9w_lead.id).length : ℚ) = -0.1 ∧
    (lead_sentiments c9w_processed c9w_lead.id).sum /
      ((lead_sentiments c9w_processed c9w_lead.id).length : ℚ) ≠ 0 ∧
    (c9w_processed.leads.find? (fun l => l.id == c9w_lead.id)).map
        (·.sentiment_score) =
      (c9w_store.leads.find? (fun l => l.id == c9w_lead.id)).map
        (fun _ => (lead_sentiments c9w_processed c9w_lead.id).sum /
          ((lead_sentiments c9w_processed c9w_lead.id).length : ℚ)) := by
  have hev : (lead_sentiments c9w_processed c9w_lead.id).sum /
      ((lead_sentiments c9w_processed c9w_lead.id).length : ℚ) = -0.1 := by
    have habs : |(2 / 5 : ℚ)| = 2 / 5 := abs_of_nonneg (by norm_num)
    have hs1 : ¬("greeting" : String) = "general" := by decide
    have hs2 : ¬("greeting" : String) = "support_request" := by decide
    have hs3 : ¬("greeting" : String) = "complaint" := by decide
    norm_num [process_message_for_lead, lead_sentiments, c9w_store,
      c9w_lead, sort_by_created_at_desc, sort_by_created_at,
      insert_by_created_at, calculate_confidence, should_escalate,
      mk_sentiment, update_interaction, generate_response,
      response_templates, name_part, habs, min_def, hs1, hs2, hs3,
      List.filterMap_cons, List.filterMap_nil, List.filter_cons,
      List.filter_nil, List.sum_cons, List.sum_nil]
  exact ⟨hev, by rw [hev]; norm_num,
    C9_running_average c9w_store 200 c9w_lead "whatsapp" "hm" "greeting"
      {} (mk_sentiment (-0.4) 0) (by rw [hev]; norm_num)⟩

end AgenteVendas
